import Mathlib

/-
Verification of the linda-engine concurrency core (linda_core) against its
specification. The C sources embedded here are:
  - ptreaty.c : sync channels ("treaties") built on mutexes and condvars,
  - abbey.c   : the task scheduler (task buffer + worker "monk" pool),
  - poseta.c  : the dependency layer (registry of wrapped tasks),
  - tcpip.c   : the mailbox (mutex-protected singly linked FIFO).
Machine integers are modelled as Int (C int) or Nat (counts, indices);
function pointers are modelled as opaque Nat keys; allocation outcomes
(realloc/malloc success or failure) are explicit parameters, since C leaves
them environment-dependent; memory freshly obtained from realloc has
indeterminate content in C, so it too is an explicit parameter.
-/

namespace LindaEngine

/-! ## Ptreaty: sync channels (ptreaty.c)

A SyncThreads channel holds two mutexes (baton, request), two condition
variables (signal, ack), a flag word and a predicate counter (ptreaty.h /
ptreaty.c lines 100-111). For the single-client protocol facts proved here
the observable state is the predicate counter and whether each mutex is
currently locked; the condition variables carry no persistent state. -/

namespace Ptreaty

/-- Observable state of a SyncThreads channel: the predicate counter (a C
int), and whether the request and baton mutexes are currently held. -/
structure SyncThreads where
  predicate : Int
  requestLocked : Bool
  batonLocked : Bool
  flags : Nat
deriving DecidableEq, Repr

/-- Embedding of ptreaty_init (ptreaty.c lines 100-111): both mutexes are
initialized unlocked, flags and predicate are zeroed. -/
def ptreaty_init : SyncThreads :=
  { predicate := 0, requestLocked := false, batonLocked := false, flags := 0 }

/-- Embedding of ptreaty_hoist_flag (ptreaty.c lines 212-216): lock the
request mutex ("hoist the flag"). In the two-party protocol the waiter calls
this while the mutex is free. -/
def ptreaty_hoist_flag (st : SyncThreads) : SyncThreads :=
  { st with requestLocked := true }

/-- Embedding of ptreaty_lower_flag (ptreaty.c lines 222-225): unlock the
request mutex. -/
def ptreaty_lower_flag (st : SyncThreads) : SyncThreads :=
  { st with requestLocked := false }

/-- Embedding of ptreaty_flag_hoisted (ptreaty.c lines 230-232): trylock on
the request mutex returns EBUSY exactly when it is already locked. (The
probe also acquires the mutex when it is free; the only caller branches,
ptreaty_make_m_run lines 254-256, immediately unlock it again, so the net
effect modelled in ptreaty_make_m_run is state-preserving.) -/
def ptreaty_flag_hoisted (st : SyncThreads) : Bool :=
  st.requestLocked

/-- Embedding of ptreaty_make_m_run (ptreaty.c lines 245-257). When the
request flag is hoisted it takes the baton lock, increments the predicate
counter, signals, and releases the baton — net observable effect: the
predicate counter goes up by one. When the flag is NOT hoisted, the trylock
inside ptreaty_flag_hoisted acquired the request mutex and the else branch
(line 255) releases it again: the predicate counter is left untouched and no
signal is sent. -/
def ptreaty_make_m_run (st : SyncThreads) : SyncThreads :=
  if ptreaty_flag_hoisted st then
    { st with predicate := st.predicate + 1 }
  else
    st

/-- Outcome of calling ptreaty_wait with no concurrent signaler: either the
call returns (with the post-state), or it blocks in pthread_cond_wait. -/
inductive WaitBehavior
  | returns (st : SyncThreads)
  | blocks
deriving DecidableEq, Repr

/-- Embedding of ptreaty_wait (ptreaty.c lines 199-206): while the predicate
counter is 0 the caller waits on the signal condvar; with no other thread
left to signal, a zero predicate means the call blocks. Otherwise the loop
is skipped (or exited after a signal) and the counter is decremented. -/
def ptreaty_wait (st : SyncThreads) : WaitBehavior :=
  if st.predicate = 0 then .blocks
  else .returns { st with predicate := st.predicate - 1 }

end Ptreaty

/-! ## Abbey: the task scheduler (abbey.c)

Task slots cycle through the states TS_READY = 0, TS_CREATING = 1,
TS_OPEN = 2, TS_BUSY = 3 (abbey.c lines 16-22). The globals modelled are
the task array, and dedicatedTaskBuffer (lines 73-74); nofTasks is the
length of the task list. The abbeyMutex serializes every operation below,
so each is modelled as an atomic state transformation; blocking on
abbeyCond is modelled as an explicit outcome. -/

namespace Abbey

/-- Task slot state TS_READY (abbey.c line 16). -/
def TS_READY : Int := 0
/-- Task slot state TS_CREATING (abbey.c line 18). -/
def TS_CREATING : Int := 1
/-- Task slot state TS_OPEN (abbey.c line 20). -/
def TS_OPEN : Int := 2
/-- Task slot state TS_BUSY (abbey.c line 22). -/
def TS_BUSY : Int := 3

/-- Embedding of the Task descriptor (abbey.c lines 51-60): a state field (a
C int), a function pointer, a context pointer and a description. Pointers
and the description are modelled as opaque Nat keys. -/
structure Task where
  state : Int
  func : Nat
  context : Nat
  description : Nat
deriving DecidableEq, Repr

/-- Scheduler state: the task array (C: Task *task with nofTasks entries)
and the dedicatedTaskBuffer count of leading reserved slots (abbey.c line
74; a C int holding 0 or 2). -/
structure AbbeyState where
  task : List Task
  dedicatedTaskBuffer : Nat
deriving DecidableEq, Repr

/-- Helper: replace the element at index i (the task array is updated in
place in C; out-of-range indices leave the list unchanged). -/
def modifyTask : List Task → Nat → (Task → Task) → List Task
  | [], _, _ => []
  | t :: r, 0, f => f t :: r
  | t :: r, Nat.succ n, f => t :: modifyTask r n f

/-- Helper: set the state field of slot i, as the assignments task[i].state
= state in abbey.c (lines 104 and 132) do. -/
def updateState (ts : List Task) (i : Nat) (s : Int) : List Task :=
  modifyTask ts i (fun t => { t with state := s })

/-- Helper for the slot scan: first index at or after position i whose slot
state equals s. Mirrors the for loop of find_task_and_change_state (abbey.c
line 127): for(i = dedicatedTaskBuffer; i < nofTasks; i++). -/
def findSlotAux : List Task → Nat → Int → Option Nat
  | [], _, _ => none
  | t :: r, i, s => if t.state = s then some i else findSlotAux r (i + 1) s

/-- Scan of the task array from index start for a slot in state s, as the
for loop of find_task_and_change_state does starting at
dedicatedTaskBuffer. -/
def findSlot (ts : List Task) (start : Nat) (s : Int) : Option Nat :=
  findSlotAux (ts.drop start) start s

/-- Embedding of increaseTaskBuffer (abbey.c lines 166-179). The realloc
outcome is an explicit parameter: none models realloc returning NULL (the
routine logs and returns, leaving every global unchanged — in particular
dedicatedTaskBuffer stays at the 0 its caller just set); some fresh models
success, where fresh is the INDETERMINATE content C realloc gives the new
tail of the array (the routine never initializes the new slots). On success
nofTasks grows by the amount (the length of fresh; the C amount is
*(int*)context = 4) and dedicatedTaskBuffer is reset to 2 (line 176). -/
def increaseTaskBuffer (st : AbbeyState) (alloc : Option (List Task)) : AbbeyState :=
  match alloc with
  | none => st
  | some fresh => { task := st.task ++ fresh, dedicatedTaskBuffer := 2 }

/-- Outcome of one iteration of the while loop in find_task_and_change_state
(abbey.c lines 126-158): a slot was found and its state changed (returning
the index and new state, lines 128-135); or the caller blocked on abbeyCond
(line 139); or the emergency growth branch ran (lines 140-157) and the loop
will retry. -/
inductive FindIter
  | found (i : Nat) (st : AbbeyState)
  | wait
  | grow (st : AbbeyState)
deriving DecidableEq, Repr

/-- Embedding of one iteration of find_task_and_change_state (abbey.c lines
123-159). The scan starts at dedicatedTaskBuffer (line 127). On a hit the
slot state becomes newState and the index is returned (lines 132-135). On a
miss: if mayFail is set (worker case) OR dedicatedTaskBuffer is 0, the
caller waits on abbeyCond (line 138-139); otherwise the emergency branch
sets dedicatedTaskBuffer to 0 (line 150) and calls increaseTaskBuffer (line
153) before the loop retries. -/
def find_iter (st : AbbeyState) (s ns : Int) (mayFail : Bool)
    (alloc : Option (List Task)) : FindIter :=
  match findSlot st.task st.dedicatedTaskBuffer s with
  | some i => .found i { st with task := updateState st.task i ns }
  | none =>
    if mayFail ∨ st.dedicatedTaskBuffer = 0 then .wait
    else .grow (increaseTaskBuffer { st with dedicatedTaskBuffer := 0 } alloc)

/-- Result of a full find_task_and_change_state call, run for a bounded
number of loop iterations: a slot was claimed; or the caller is queued on
abbeyCond (terminal for this analysis — only another thread can wake it);
or the iteration budget ran out. -/
inductive FindResult
  | found (i : Nat) (st : AbbeyState)
  | waited
  | spin
deriving DecidableEq, Repr

/-- Embedding of the find_task_and_change_state loop (abbey.c lines
123-159) with explicit fuel; each emergency growth consumes the next
realloc outcome from allocs. -/
def find_task_and_change_state : Nat → AbbeyState → Int → Int → Bool →
    List (Option (List Task)) → FindResult
  | 0, _, _, _, _, _ => .spin
  | Nat.succ fuel, st, s, ns, mayFail, allocs =>
    match find_iter st s ns mayFail (allocs.getD 0 none) with
    | .found i st1 => .found i st1
    | .wait => .waited
    | .grow st1 => find_task_and_change_state fuel st1 s ns mayFail allocs.tail

/-- Result of dispatch_described_task: on success the C return value (line
320) together with the slot index the call claimed internally and the new
scheduler state; or the caller blocked on abbeyCond; or fuel ran out. -/
inductive DispatchResult
  | ok (ret : Int) (taskId : Nat) (st : AbbeyState)
  | blocked
  | spin
deriving DecidableEq, Repr

/-- Embedding of dispatch_described_task (abbey.c lines 307-321): claim a
READY slot via find_task_and_change_state(TS_READY, TS_CREATING, 0), fill
its context, func and description fields (lines 315-317), publish it with
set_task_state(taskId, TS_OPEN) (line 318), and return 0 (line 320). -/
def dispatch_described_task (fuel : Nat) (allocs : List (Option (List Task)))
    (st : AbbeyState) (func ctx desc : Nat) : DispatchResult :=
  match find_task_and_change_state fuel st TS_READY TS_CREATING false allocs with
  | .found taskId st1 =>
    let fill : Task → Task :=
      fun t => { t with func := func, context := ctx, description := desc }
    let st2 : AbbeyState := { st1 with task := modifyTask st1.task taskId fill }
    let st3 : AbbeyState := { st2 with task := updateState st2.task taskId TS_OPEN }
    .ok 0 taskId st3
  | .waited => .blocked
  | .spin => .spin

/-- Embedding of the scheduler state right after initialization (abbey.c
lines 270-294): the task array is calloc-ed, so every slot is zeroed,
meaning state TS_READY = 0 and null func/context; dedicatedTaskBuffer holds
its initial value 2 (line 74). -/
def init_abbey (taskBufferSize : Nat) : AbbeyState :=
  { task := List.replicate taskBufferSize
      { state := TS_READY, func := 0, context := 0, description := 0 },
    dedicatedTaskBuffer := 2 }

/-- Observable effect of addMonk (abbey.c lines 187-211) on the worker
array, with the realloc outcome explicit. On success the worker-handle
array is reallocated to hold nofMonks+1 entries, computed from the OLD
nofMonks (line 190); then nofMonks is incremented (line 196); the new
thread handle is then stored and read at index nofMonks — the
POST-increment value (lines 197, 203). newCapacity is the element count of
the reallocated array, newNofMonks the incremented count, writeIndex the
index used for the store and the two subsequent reads. -/
structure AddMonkResult where
  newCapacity : Nat
  newNofMonks : Nat
  writeIndex : Nat
deriving DecidableEq, Repr

/-- Embedding of addMonk (abbey.c lines 187-211); none models realloc
failure (log and return, line 191-194). -/
def addMonk (nofMonks : Nat) (allocOk : Bool) : Option AddMonkResult :=
  if allocOk then
    some { newCapacity := nofMonks + 1
         , newNofMonks := nofMonks + 1
         , writeIndex := nofMonks + 1 }
  else none

end Abbey

/-! ## Poseta: the dependency layer (poseta.c)

Function pointers serve as registry keys; they are modelled as opaque Nat
keys (getCondition compares *lc->name == *name, which for function pointers
is pointer equality, poseta.c line 182). -/

namespace Poseta

/-- The two treaty routines a PosetaTask can carry (poseta.c lines 248 and
262): ptreaty_should_be_first or ptreaty_should_be_later. -/
inductive TreatyFn
  | shouldBeFirst
  | shouldBeLater
deriving DecidableEq, Repr

/-- Embedding of struct PosetaTask (poseta.c lines 63-74): the wrapped
function, its context argument, the treaty routine, the shared sync channel
(identified by an opaque Nat), and the order byte (0 = run the function
first then the treaty; 1 = treaty first). -/
structure PosetaTask where
  func : Nat
  context : Nat
  treaty : TreatyFn
  st : Nat
  order : Nat
deriving DecidableEq, Repr

/-- The exec field of a Condition; registration always stores poseta_task
(poseta.c lines 254 and 267). -/
inductive ExecFn
  | posetaTask
deriving DecidableEq, Repr

/-- Embedding of struct Condition (poseta.c lines 86-97): registry key
(function pointer), condition index, exec function and its PosetaTask
context. The linked list next pointers become the list structure of the
registry. -/
structure Condition where
  name : Nat
  condition_index : Nat
  exec : ExecFn
  context : PosetaTask
deriving DecidableEq, Repr

/-- Embedding of getCondition (poseta.c lines 173-189): walk the linked
list from the head and return the first entry whose name (function pointer)
equals the key; none if absent (also when the list is empty, lines
175-178). -/
def getCondition : Nat → List Condition → Option Condition
  | _, [] => none
  | n, lc :: rest => if lc.name = n then some lc else getCondition n rest

/-- Embedding of addCondition (poseta.c lines 151-167). An empty registry
takes the condition as its first entry (lines 154-159). Otherwise, if an
entry with the same name already exists the addition is rejected and the
registry is unchanged (lines 160-163); else the condition is prepended
(lines 165-166). -/
def addCondition (cond : Condition) (reg : List Condition) : List Condition :=
  match reg with
  | [] => [cond]
  | _ :: _ => if (getCondition cond.name reg).isSome then reg else cond :: reg

/-- Embedding of poseta_func1_if_func0 (poseta.c lines 244-271): allocate
one fresh sync channel chan (pt0->st, line 249, shared by pt1->st, line
263), register for func0 a wrapper that runs the function first and then
ptreaty_should_be_first (order 0, lines 246-257), and for func1 a wrapper
that runs ptreaty_should_be_later first and then the function (order 1,
lines 260-270). -/
def poseta_func1_if_func0 (func0 func1 chan : Nat) (reg : List Condition) :
    List Condition :=
  let pt0 : PosetaTask :=
    { func := func0, context := 0, treaty := .shouldBeFirst, st := chan, order := 0 }
  let cond0 : Condition :=
    { name := func0, condition_index := 0, exec := .posetaTask, context := pt0 }
  let reg1 := addCondition cond0 reg
  let pt1 : PosetaTask :=
    { func := func1, context := 0, treaty := .shouldBeLater, st := chan, order := 1 }
  let cond1 : Condition :=
    { name := func1, condition_index := 1, exec := .posetaTask, context := pt1 }
  addCondition cond1 reg1

/-- Outcome of dispatch_poseta_task (poseta.c lines 291-309). dispatched
records the exec function and the PosetaTask handed to
dispatch_described_task. nullDereference marks the unregistered fallback:
when getCondition returns NULL the code logs a warning and jumps to the
fallback label (line 297), where it evaluates lc->exec and lc->context with
lc still NULL (line 308) — a null-pointer dereference, undefined behavior,
modelled as this designated crash outcome instead of any dispatch. -/
inductive PosetaDispatch
  | dispatched (exec : ExecFn) (pt : PosetaTask)
  | nullDereference
deriving DecidableEq, Repr

/-- Embedding of dispatch_poseta_task (poseta.c lines 291-309): look the
function up in the registry; if absent, log and fall through to the
dereference of the NULL entry (see PosetaDispatch.nullDereference); if
present, store the caller's context into the registered PosetaTask (lines
299-305, for condition_index 0 or 1) and dispatch the wrapper. -/
def dispatch_poseta_task (func ctx : Nat) (reg : List Condition) : PosetaDispatch :=
  match getCondition func reg with
  | none => .nullDereference
  | some lc =>
    let pt :=
      if lc.condition_index = 0 ∨ lc.condition_index = 1 then
        { lc.context with context := ctx }
      else lc.context
    .dispatched lc.exec pt

end Poseta

/-! ## The precedence protocol as a two-thread interleaving machine

After poseta_func1_if_func0(A, B), dispatching both wrappers gives two
threads sharing one SyncThreads channel:
  thread A runs poseta_task with order 0 (poseta.c lines 216-218): first
  the real call func0, then ptreaty_should_be_first (ptreaty.c 263-274);
  thread B runs poseta_task with order 1 (poseta.c lines 219-222): first
  ptreaty_should_be_later (ptreaty.c 276-286), then the real call func1.
Every statement of the two treaty routines becomes one atomic step;
pthread_cond_wait releases the request mutex and starts waiting in one
atomic step, and the machine has no spurious wakeups (a waiter resumes only
after the broadcast, and only once it can reacquire the mutex). The two
mutexes are modelled by their optional owner. -/

namespace Prec

/-- The two parties: thread A (the "first" wrapper) and thread B (the
"later" wrapper), as owners of the channel mutexes. -/
inductive Party
  | A
  | B
deriving DecidableEq, Repr, Fintype

/-- Program counter of thread A, running func0 then ptreaty_should_be_first
(poseta.c line 217 then 218 with pt->order = 0; ptreaty.c lines 263-274). -/
inductive PcFirst
  | runFunc0
  | lockRequest
  | broadcast
  | trylockBaton
  | unlockRequest
  | unlockBaton
  | done
deriving DecidableEq, Repr, Fintype

/-- Program counter of thread B, running ptreaty_should_be_later then func1
(poseta.c lines 220-221 with pt->order = 1; ptreaty.c lines 276-286). -/
inductive PcLater
  | trylockRequest
  | lockBaton
  | condWait
  | waiting
  | runFunc1
  | done
deriving DecidableEq, Repr, Fintype

/-- Global configuration: both program counters, the owner of each channel
mutex, whether the broadcast has reached B while it was waiting, and whether
each party's real call has happened. -/
structure Config where
  pcA : PcFirst
  pcB : PcLater
  request : Option Party
  baton : Option Party
  signaled : Bool
  func0Done : Bool
  func1Started : Bool
deriving DecidableEq, Repr

/-- One step of thread A, from the order 0 wrapper body: run func0
(poseta.c line 217); lock the request mutex (ptreaty.c line 265, blocking
while owned); broadcast on the signal condvar (line 267, waking B iff it is
waiting); trylock the baton (line 269): on EBUSY unlock the request mutex
and return (lines 270-271), otherwise unlock the baton and return with the
request mutex still held (line 273). Returns none when the thread is
blocked or finished. -/
def stepA (c : Config) : Option Config :=
  match c.pcA with
  | .runFunc0 => some { c with pcA := .lockRequest, func0Done := true }
  | .lockRequest =>
    match c.request with
    | none => some { c with pcA := .broadcast, request := some .A }
    | some _ => none
  | .broadcast =>
    some { c with pcA := .trylockBaton,
                  signaled := c.signaled || (c.pcB = .waiting) }
  | .trylockBaton =>
    match c.baton with
    | none => some { c with pcA := .unlockBaton, baton := some .A }
    | some _ => some { c with pcA := .unlockRequest }
  | .unlockRequest => some { c with pcA := .done, request := none }
  | .unlockBaton => some { c with pcA := .done, baton := none }
  | .done => none

/-- One step of thread B, from the order 1 wrapper body: trylock the
request mutex (ptreaty.c line 277): on EBUSY the first party already holds
or held it and B proceeds straight to func1 (line 278); on success (request
acquired) lock the baton (line 280, blocking while owned); then
pthread_cond_wait(signal, request) atomically releases the request mutex
and waits (line 282); once the broadcast arrived B reacquires the request
mutex and continues into func1 (poseta.c line 221). Returns none when the
thread is blocked or finished. -/
def stepB (c : Config) : Option Config :=
  match c.pcB with
  | .trylockRequest =>
    match c.request with
    | some _ => some { c with pcB := .runFunc1 }
    | none => some { c with pcB := .lockBaton, request := some .B }
  | .lockBaton =>
    match c.baton with
    | none => some { c with pcB := .condWait, baton := some .B }
    | some _ => none
  | .condWait => some { c with pcB := .waiting, request := none }
  | .waiting =>
    if c.signaled then
      match c.request with
      | none => some { c with pcB := .runFunc1, request := some .B }
      | some _ => none
    else none
  | .runFunc1 => some { c with pcB := .done, func1Started := true }
  | .done => none

/-- Initial configuration: both wrappers dispatched, neither has run; the
fresh channel from poseta_func1_if_func0 has both mutexes free (ptreaty.c
lines 100-111). -/
def precInit : Config :=
  { pcA := .runFunc0, pcB := .trylockRequest, request := none, baton := none,
    signaled := false, func0Done := false, func1Started := false }

/-- Interleaving: either thread takes its next atomic step. -/
def Step (c cNext : Config) : Prop :=
  stepA c = some cNext ∨ stepB c = some cNext

/-- Configurations reachable from precInit under any interleaving of the
two wrapper threads. -/
inductive Reachable : Config → Prop
  | refl : Reachable precInit
  | tail {c cNext : Config} : Reachable c → Step c cNext → Reachable cNext

/-- Inductive invariant of the machine: the bookkeeping facts that make the
ordering property go through the induction. -/
def Inv (c : Config) : Prop :=
  (c.func0Done = true ↔ c.pcA ≠ .runFunc0)
  ∧ (c.request = some .A → c.func0Done = true)
  ∧ (c.signaled = true → c.func0Done = true)
  ∧ (c.pcB = .trylockRequest → c.request ≠ some .B)
  ∧ (c.pcB = .runFunc1 → c.func0Done = true)
  ∧ (c.func1Started = true → c.func0Done = true)

instance (c : Config) : Decidable (Inv c) := by
  unfold Inv; infer_instance

/-- Helper predicate: the invariant holds of the target of a step, when the
step is enabled. -/
def InvAfter : Option Config → Prop
  | none => True
  | some c => Inv c

instance (o : Option Config) : Decidable (InvAfter o) := by
  cases o <;> (unfold InvAfter; infer_instance)

end Prec

/-! ## Tcpip mailbox (tcpip.c)

A TcpipMailbox is a mutex-protected singly linked list with first and last
pointers; push appends at the tail (tcpip.c lines 87-100), pop removes the
head and returns NULL on an empty mailbox (lines 123-134). The list of
queued messages, oldest first, is the observable content; messages are
opaque Nat keys. -/

namespace Tcpip

/-- Messages are opaque; only identity matters to the FIFO contract. -/
abbrev TcpipMessage := Nat

/-- Mailbox content, head = oldest message (M->first), tail end = newest
(M->last). -/
abbrev TcpipMailbox := List TcpipMessage

/-- Embedding of push (tcpip.c lines 87-100): under the mailbox lock the
message is appended as the newest (last) item; an empty mailbox takes it as
its first item. -/
def push (M : TcpipMailbox) (m : TcpipMessage) : TcpipMailbox :=
  M ++ [m]

/-- Embedding of pop (tcpip.c lines 123-134): under the mailbox lock, on an
empty mailbox return NULL (modelled none) at once — no blocking; otherwise
detach and return the first (oldest) message. The pair is (returned
message, remaining mailbox). -/
def pop (M : TcpipMailbox) : Option TcpipMessage × TcpipMailbox :=
  match M with
  | [] => (none, [])
  | m :: rest => (some m, rest)

end Tcpip

/-! ## Concrete scheduler and registry states used in the theorems below -/

namespace Abbey

/-- Shorthand for a zeroed (calloc-ed) task slot: state TS_READY = 0. -/
def zeroTask : Task := { state := 0, func := 0, context := 0, description := 0 }

/-- Scheduler state with every slot OPEN (all dispatched, none yet taken by
a worker) and the leading-slot reservation at its normal value 2. Slots 0
and 1 can be OPEN after dispatches that ran while dedicatedTaskBuffer was 0
(the emergency windows opened at abbey.c lines 150 and 246), followed by a
successful addMonk restoring dedicatedTaskBuffer to 2 (line 209). -/
def allOpenState : AbbeyState :=
  { task := [ { state := 2, func := 5, context := 5, description := 5 }
            , { state := 2, func := 5, context := 5, description := 5 }
            , { state := 2, func := 6, context := 6, description := 6 }
            , { state := 2, func := 6, context := 6, description := 6 } ]
  , dedicatedTaskBuffer := 2 }

/-- Scheduler state whose ordinary (non-reserved) slots 2 and 3 are all
OPEN while the two reserved leading slots are still READY: the saturated
buffer of the emergency-growth scenario. -/
def saturatedState : AbbeyState :=
  { task := [ zeroTask
            , zeroTask
            , { state := 2, func := 5, context := 5, description := 5 }
            , { state := 2, func := 6, context := 6, description := 6 } ]
  , dedicatedTaskBuffer := 2 }

/-- Result state of dispatching (func 7, ctx 8, desc 9) into saturatedState
with a failed realloc: the emergency branch set dedicatedTaskBuffer to 0,
growth failed, and the retry claimed reserved slot 0 and published it. -/
def saturatedAfterDispatch : AbbeyState :=
  { task := [ { state := 2, func := 7, context := 8, description := 9 }
            , zeroTask
            , { state := 2, func := 5, context := 5, description := 5 }
            , { state := 2, func := 6, context := 6, description := 6 } ]
  , dedicatedTaskBuffer := 0 }

/-- Scheduler state after dispatching one task (func 10, ctx 20, desc 30)
into a freshly initialized 4-slot buffer: the search claimed slot 2. -/
def afterFirstDispatch : AbbeyState :=
  { task := [ zeroTask
            , zeroTask
            , { state := 2, func := 10, context := 20, description := 30 }
            , zeroTask ]
  , dedicatedTaskBuffer := 2 }

/-- Scheduler state after a second dispatch (func 11, ctx 21, desc 31) into
afterFirstDispatch: the search claimed slot 3. -/
def afterSecondDispatch : AbbeyState :=
  { task := [ zeroTask
            , zeroTask
            , { state := 2, func := 10, context := 20, description := 30 }
            , { state := 2, func := 11, context := 21, description := 31 } ]
  , dedicatedTaskBuffer := 2 }

/-- Scheduler state with both ordinary slots BUSY (workers executing them)
and the reserved slots READY, about to run emergency growth. -/
def busyState : AbbeyState :=
  { task := [ zeroTask
            , zeroTask
            , { state := 3, func := 1, context := 1, description := 1 }
            , { state := 3, func := 2, context := 2, description := 2 } ]
  , dedicatedTaskBuffer := 2 }

/-- One possible indeterminate content of the memory realloc hands to
increaseTaskBuffer for the four new slots: stale bytes whose state field
happens to hold 2 = TS_OPEN. C makes no promise about this content. -/
def junkTask : Task := { state := 2, func := 9, context := 9, description := 9 }

/-- The junk realloc tail: four never-dispatched slots that look OPEN. -/
def junkFresh : List Task := [junkTask, junkTask, junkTask, junkTask]

/-- busyState after a successful emergency growth whose fresh memory was
junkFresh: 8 slots, dedicatedTaskBuffer restored to 2, slots 4..7 carrying
the indeterminate OPEN-looking states. -/
def grownState : AbbeyState :=
  { task := [ zeroTask
            , zeroTask
            , { state := 3, func := 1, context := 1, description := 1 }
            , { state := 3, func := 2, context := 2, description := 2 }
            , junkTask, junkTask, junkTask, junkTask ]
  , dedicatedTaskBuffer := 2 }

/-- grownState after a worker's scan claimed the junk slot 4 (OPEN to BUSY). -/
def grownClaimedState : AbbeyState :=
  { task := [ zeroTask
            , zeroTask
            , { state := 3, func := 1, context := 1, description := 1 }
            , { state := 3, func := 2, context := 2, description := 2 }
            , { state := 3, func := 9, context := 9, description := 9 }
            , junkTask, junkTask, junkTask ]
  , dedicatedTaskBuffer := 2 }

end Abbey

namespace Poseta

/-- Registry produced by poseta_func1_if_func0 on keys 10 (first) and 11
(later) with channel 0, starting from the empty registry. -/
def pairRegistry : List Condition := poseta_func1_if_func0 10 11 0 []

/-- The original registry entry for key 10 inside pairRegistry. -/
def entry10 : Condition :=
  { name := 10, condition_index := 0, exec := .posetaTask
  , context := { func := 10, context := 0, treaty := .shouldBeFirst, st := 0, order := 0 } }

/-- A second, different condition carrying the same logical identity (key
10): the duplicate whose registration must be rejected. -/
def duplicate10 : Condition :=
  { name := 10, condition_index := 1, exec := .posetaTask
  , context := { func := 10, context := 0, treaty := .shouldBeLater, st := 3, order := 1 } }

end Poseta

namespace Prec

/-- Final configuration of a complete run: A ran func0 and the whole
should-be-first protocol (keeping the request mutex, baton branch free), B
then hit EBUSY on its trylock and ran func1 directly. -/
def precFinal : Config :=
  { pcA := .done, pcB := .done, request := some .A, baton := none,
    signaled := false, func0Done := true, func1Started := true }

end Prec

/-! ## Theorems -/

namespace Ptreaty

/-- C2, counterexample. On a channel whose request-mutex gate is NOT
hoisted, ptreaty_make_m_run takes the else branch (ptreaty.c line 255): it
merely unlocks the request mutex its own probe had just acquired, leaving
the predicate counter at 0 — the channel state is completely unchanged — and
the first subsequent ptreaty_wait then blocks in pthread_cond_wait instead
of returning promptly. The early signal is lost, not remembered. -/
theorem signal_without_hoisted_flag_is_lost :
    ptreaty_make_m_run ptreaty_init = ptreaty_init
    ∧ ptreaty_wait (ptreaty_make_m_run ptreaty_init) = .blocks := by
  decide

/-- C2, amended. Signal-before-wait is remembered exactly when the waiter
has hoisted the request-mutex gate: if the gate is hoisted (and the counter
is nonnegative, its documented invariant), ptreaty_make_m_run increments
the predicate counter and the first subsequent ptreaty_wait returns
promptly, restoring the original channel state, rather than blocking. -/
theorem signal_with_hoisted_flag_is_remembered (st : SyncThreads)
    (h : st.requestLocked = true) (h0 : 0 ≤ st.predicate) :
    (ptreaty_make_m_run st).predicate = st.predicate + 1
    ∧ ptreaty_wait (ptreaty_make_m_run st) = .returns st := by
  have hrun : ptreaty_make_m_run st = { st with predicate := st.predicate + 1 } := by
    unfold ptreaty_make_m_run ptreaty_flag_hoisted
    rw [h]
    simp
  rw [hrun]
  refine ⟨rfl, ?_⟩
  unfold ptreaty_wait
  have hne : ¬ (st.predicate + 1 = 0) := by omega
  simp only [hne, if_false]
  have hsub : st.predicate + 1 - 1 = st.predicate := by omega
  simp [hsub]

/-- C2, witness for the amended theorem: after hoisting the flag on a fresh
channel, a signal followed by a wait returns promptly with the channel back
in the hoisted state. -/
theorem signal_with_hoisted_flag_is_remembered_witness :
    (ptreaty_make_m_run (ptreaty_hoist_flag ptreaty_init)).predicate =
      (ptreaty_hoist_flag ptreaty_init).predicate + 1
    ∧ ptreaty_wait (ptreaty_make_m_run (ptreaty_hoist_flag ptreaty_init)) =
      .returns (ptreaty_hoist_flag ptreaty_init) :=
  signal_with_hoisted_flag_is_remembered (ptreaty_hoist_flag ptreaty_init)
    (by decide) (by decide)

end Ptreaty

namespace Tcpip

/-- C8. The mailbox is a FIFO with non-blocking empty pop: a push onto an
empty mailbox followed by a pop returns that very message and leaves the
mailbox empty; pop on an empty mailbox returns the empty sentinel (NULL,
modelled none) without blocking; and in general pop detaches and returns
the oldest message still present (the head of the queue, since push appends
at the tail). -/
theorem mailbox_fifo_contract :
    (∀ m : TcpipMessage, pop (push [] m) = (some m, []))
    ∧ pop ([] : TcpipMailbox) = (none, [])
    ∧ (∀ (m : TcpipMessage) (rest : TcpipMailbox), pop (m :: rest) = (some m, rest))
    ∧ (∀ (M : TcpipMailbox) (m : TcpipMessage), push M m = M ++ [m]) := by
  refine ⟨fun m => rfl, rfl, fun m rest => rfl, fun M m => rfl⟩

end Tcpip

namespace Poseta

/-- C5. When dispatch_poseta_task is called with a function that was never
registered, getCondition returns NULL; the code logs a warning and jumps to
the fallback label, where it reads lc->exec and lc->context from the NULL
registry entry (poseta.c line 308) — a null-pointer dereference — instead of
dispatching the raw function directly. -/
theorem unregistered_dispatch_dereferences_null (func ctx : Nat)
    (reg : List Condition) (h : getCondition func reg = none) :
    dispatch_poseta_task func ctx reg = .nullDereference := by
  unfold dispatch_poseta_task
  rw [h]

/-- C5, witness: dispatching the unregistered function 5 on an empty
registry hits the null dereference. -/
theorem unregistered_dispatch_dereferences_null_witness :
    dispatch_poseta_task 5 7 [] = .nullDereference :=
  unregistered_dispatch_dereferences_null 5 7 [] rfl

/-- C7. Registering a condition whose logical identity (function-pointer
key) is already present is rejected: addCondition leaves the registry
unchanged, and a lookup of that identity still finds the original entry. -/
theorem duplicate_registration_rejected (cond : Condition)
    (reg : List Condition) (orig : Condition)
    (h : getCondition cond.name reg = some orig) :
    addCondition cond reg = reg
    ∧ getCondition cond.name (addCondition cond reg) = some orig := by
  cases reg with
  | nil => simp [getCondition] at h
  | cons a l =>
    have hs : (getCondition cond.name (a :: l)).isSome = true := by
      rw [h]; rfl
    have hadd : addCondition cond (a :: l) = a :: l := by
      unfold addCondition
      simp [hs]
    exact ⟨hadd, by rw [hadd]; exact h⟩

/-- C7, witness: after poseta_func1_if_func0 has registered keys 10 and 11,
re-registering identity 10 (as poseta_func1_if_func0 would on a second
call) is rejected and lookup still yields the original entry for 10. -/
theorem duplicate_registration_rejected_witness :
    addCondition duplicate10 pairRegistry = pairRegistry
    ∧ getCondition duplicate10.name (addCondition duplicate10 pairRegistry) =
      some entry10 :=
  duplicate_registration_rejected duplicate10 pairRegistry entry10 (by decide)

end Poseta

namespace Abbey

/-- Helper: the slot scan never returns an index below the position it
started from. -/
theorem findSlotAux_ge (l : List Task) :
    ∀ (i : Nat) (s : Int) (j : Nat), findSlotAux l i s = some j → i ≤ j := by
  induction l with
  | nil => intro i s j h; simp [findSlotAux] at h
  | cons t r ih =>
    intro i s j h
    unfold findSlotAux at h
    by_cases hc : t.state = s
    · simp [hc] at h
      omega
    · simp [hc] at h
      have := ih (i + 1) s j h
      omega

/-- Helper: findSlot starting at start only returns indices at or after
start. -/
theorem findSlot_ge (ts : List Task) (start : Nat) (s : Int) (j : Nat)
    (h : findSlot ts start s = some j) : start ≤ j :=
  findSlotAux_ge (ts.drop start) start s j h

/-- C3, amended. Whenever a dispatch (mayFail = 0) finds no READY slot and
the leading-slot reservation dedicatedTaskBuffer is nonzero — the normal
case — the caller is not queued on abbeyCond: the iteration takes the
emergency branch, which sets dedicatedTaskBuffer to 0 and synchronously
runs increaseTaskBuffer before the loop retries the slot search. (When
dedicatedTaskBuffer is already 0, the same code queues the dispatcher on
the condition variable exactly like a worker; see the counterexample.) -/
theorem dispatch_grows_buffer_when_no_ready_slot (st : AbbeyState)
    (alloc : Option (List Task))
    (h : findSlot st.task st.dedicatedTaskBuffer TS_READY = none)
    (h0 : st.dedicatedTaskBuffer ≠ 0) :
    find_iter st TS_READY TS_CREATING false alloc =
      .grow (increaseTaskBuffer { st with dedicatedTaskBuffer := 0 } alloc) := by
  unfold find_iter
  rw [h]
  simp [h0]

/-- C3, witness: on the saturated 4-slot buffer the dispatch iteration
takes the growth branch rather than the wait. -/
theorem dispatch_grows_buffer_when_no_ready_slot_witness :
    find_iter saturatedState TS_READY TS_CREATING false none =
      .grow (increaseTaskBuffer { saturatedState with dedicatedTaskBuffer := 0 } none) :=
  dispatch_grows_buffer_when_no_ready_slot saturatedState none (by decide) (by decide)

/-- C3, counterexample. A dispatch call CAN end up queued on the
scheduler's condition variable: on a buffer whose slots are all OPEN, the
first iteration takes the emergency branch (dedicatedTaskBuffer := 0), the
realloc inside increaseTaskBuffer fails, and the retry — now running with
dedicatedTaskBuffer = 0 — executes pthread_cond_wait on abbeyCond (abbey.c
line 139, reached because !dedicatedTaskBuffer holds), so the dispatching
caller blocks exactly like a worker. -/
theorem dispatcher_queued_on_condvar :
    dispatch_described_task 2 [none] allOpenState 7 8 9 = .blocked := by
  decide

/-- C4, amended. The slot search honours the reservation relative to the
CURRENT dedicatedTaskBuffer value: whenever an iteration of
find_task_and_change_state claims a slot, that slot's index is at least
dedicatedTaskBuffer. The reservation is not an invariant of reachable
states, because the scheduler itself zeroes dedicatedTaskBuffer in its
emergency paths (abbey.c lines 150 and 246); the counterexample below shows
an ordinary dispatch claiming reserved slot 0 right after a failed growth. -/
theorem slot_search_respects_dedicated_buffer (st : AbbeyState) (s ns : Int)
    (mayFail : Bool) (alloc : Option (List Task)) (i : Nat) (st1 : AbbeyState)
    (h : find_iter st s ns mayFail alloc = .found i st1) :
    st.dedicatedTaskBuffer ≤ i := by
  unfold find_iter at h
  cases hfs : findSlot st.task st.dedicatedTaskBuffer s with
  | some k =>
    rw [hfs] at h
    simp only [FindIter.found.injEq] at h
    exact h.1 ▸ findSlot_ge st.task st.dedicatedTaskBuffer s k hfs
  | none =>
    rw [hfs] at h
    by_cases hmf : (mayFail = true ∨ st.dedicatedTaskBuffer = 0)
    · simp [hmf] at h
    · simp [hmf] at h

/-- C4, witness: on a fresh 4-slot buffer the search claims slot 2, which
does respect the reservation of slots 0 and 1. -/
theorem slot_search_respects_dedicated_buffer_witness :
    (init_abbey 4).dedicatedTaskBuffer ≤ 2 :=
  slot_search_respects_dedicated_buffer (init_abbey 4) TS_READY TS_CREATING
    false none 2
    { task := [ zeroTask, zeroTask
              , { state := 1, func := 0, context := 0, description := 0 }
              , zeroTask ]
    , dedicatedTaskBuffer := 2 }
    (by decide)

/-- C4, counterexample. A single ordinary dispatch call transitions the
leading reserved slot 0 from READY to CREATING (and publishes it OPEN): on
the saturated buffer the emergency branch sets dedicatedTaskBuffer to 0,
the realloc fails so it stays 0, and the retry claims slot 0 — which was
READY and below the original reservation bound 2. The reserved slots are
therefore not unconditionally protected from ordinary dispatch. -/
theorem dispatch_claims_leading_slot_after_failed_growth :
    saturatedState.task.head? =
      some { state := TS_READY, func := 0, context := 0, description := 0 }
    ∧ dispatch_described_task 2 [none] saturatedState 7 8 9 =
      .ok 0 0 saturatedAfterDispatch := by
  decide

/-- C6, amended. dispatch_described_task returns the constant 0 on every
successful dispatch (abbey.c line 320), NOT the task id of the claimed
slot: the index produced by the READY-to-CREATING slot search is used only
internally and never propagated to the caller, so dispatches claiming
different slots return the same value. -/
theorem dispatch_returns_zero (fuel : Nat) (allocs : List (Option (List Task)))
    (st : AbbeyState) (func ctx desc : Nat) (r : Int) (i : Nat) (st1 : AbbeyState)
    (h : dispatch_described_task fuel allocs st func ctx desc = .ok r i st1) :
    r = 0 := by
  unfold dispatch_described_task at h
  cases hf : find_task_and_change_state fuel st TS_READY TS_CREATING false allocs with
  | found j st2 =>
    rw [hf] at h
    simp only [DispatchResult.ok.injEq] at h
    exact h.1.symm
  | waited => rw [hf] at h; exact absurd h (by simp)
  | spin => rw [hf] at h; exact absurd h (by simp)

/-- C6, witness: the dispatch that claims slot 2 of a fresh buffer returns
0. -/
theorem dispatch_returns_zero_witness : (0 : Int) = 0 :=
  dispatch_returns_zero 1 [] (init_abbey 4) 10 20 30 0 2 afterFirstDispatch
    (by decide)

/-- C6, counterexample. Two dispatches into a fresh 4-slot buffer claim the
different slots 2 and 3, yet both calls return 0: the return value is not
the claimed slot's task id (the first call claims slot 2 but returns 0),
and dispatches claiming different slots do not return different ids. -/
theorem dispatch_return_is_not_slot_id :
    dispatch_described_task 1 [] (init_abbey 4) 10 20 30 =
      .ok 0 2 afterFirstDispatch
    ∧ dispatch_described_task 1 [] afterFirstDispatch 11 21 31 =
      .ok 0 3 afterSecondDispatch
    ∧ ¬ ((0 : Int) = ((2 : Nat) : Int)) := by
  decide

/-- C9. addMonk reallocates the worker-handle array to nofMonks+1 entries
computed from the old count (abbey.c line 190), then increments nofMonks
(line 196) and stores and reads the new thread handle at index nofMonks —
the post-increment value (lines 197 and 203). That index equals the new
element count, so it is NOT strictly below it: the store is one element
past the end of the reallocated array. At the count 16 recorded in the
source's own todo note (lines 183-185, the glibc "realloc(): invalid next
size" report), the array holds 17 entries, indices 0..16, and the handle is
written at index 17. -/
theorem addMonk_write_index_out_of_bounds :
    addMonk 16 true = some { newCapacity := 17, newNofMonks := 17, writeIndex := 17 }
    ∧ ¬ (17 < 17) := by
  decide

/-- C10. increaseTaskBuffer never initializes the slots it adds: realloc
hands back indeterminate memory and the routine only bumps nofTasks and
resets dedicatedTaskBuffer (abbey.c lines 169-176). If the fresh memory
happens to hold 2 = TS_OPEN in a state field — as junkFresh does — the
grown buffer contains a never-dispatched slot that looks OPEN, and a
worker's scan (find_task_and_change_state(TS_OPEN, TS_BUSY, 1)) picks it up
and would execute its garbage function pointer. The new slots are not
READY, and the state invariant is not preserved. -/
theorem grown_slots_not_initialized :
    increaseTaskBuffer { busyState with dedicatedTaskBuffer := 0 } (some junkFresh) =
      grownState
    ∧ grownState.task.getLast? = some junkTask
    ∧ junkTask.state = TS_OPEN
    ∧ TS_OPEN ≠ TS_READY
    ∧ find_iter grownState TS_OPEN TS_BUSY true none = .found 4 grownClaimedState := by
  decide

end Abbey

namespace Prec

/-- Helper: the invariant holds in the initial configuration. -/
theorem inv_init : Inv precInit := by decide

/-- Helper: the invariant is preserved by every enabled step of either
thread, checked exhaustively over the finite configuration space. -/
theorem inv_preserved :
    ∀ (pa : PcFirst) (pb : PcLater) (rq bt : Option Party) (sg f0 f1 : Bool),
      Inv { pcA := pa, pcB := pb, request := rq, baton := bt,
            signaled := sg, func0Done := f0, func1Started := f1 } →
      InvAfter (stepA { pcA := pa, pcB := pb, request := rq, baton := bt,
                        signaled := sg, func0Done := f0, func1Started := f1 })
      ∧ InvAfter (stepB { pcA := pa, pcB := pb, request := rq, baton := bt,
                          signaled := sg, func0Done := f0, func1Started := f1 }) := by
  decide

/-- Helper: every reachable configuration satisfies the invariant. -/
theorem reachable_inv (c : Config) (h : Reachable c) : Inv c := by
  induction h with
  | refl => exact inv_init
  | tail hr hstep ih =>
    rename_i c0 c1
    obtain ⟨pa, pb, rq, bt, sg, f0, f1⟩ := c0
    have hpres := inv_preserved pa pb rq bt sg f0 f1 ih
    cases hstep with
    | inl ha =>
      have := hpres.1
      rw [ha] at this
      exact this
    | inr hb =>
      have := hpres.2
      rw [hb] at this
      exact this

/-- C1. After poseta_func1_if_func0 registers the pair — wrapping A as
{func0; ptreaty_should_be_first} (order 0) and B as
{ptreaty_should_be_later; func1} (order 1) on one shared channel — in every
configuration reachable under ANY interleaving of the two dispatched
wrapper threads, if B's real call (func1) has started then A's real call
(func0) has already completed: B's wrapped effect never runs before A's
wrapped effect has finished. -/
theorem func1_never_runs_before_func0 (c : Config) (h : Reachable c)
    (hrun : c.func1Started = true) : c.func0Done = true :=
  (reachable_inv c h).2.2.2.2.2 hrun

/-- C1, witness: a complete concrete interleaving — A runs func0 and the
whole should-be-first protocol, then B hits EBUSY on its trylock and runs
func1 — reaches precFinal with func1 started, and the theorem applied to
that run yields func0Done. -/
theorem func1_never_runs_before_func0_witness : precFinal.func0Done = true := by
  refine func1_never_runs_before_func0 precFinal ?_ (by decide)
  have h0 : Reachable precInit := Reachable.refl
  have h1 : Reachable ⟨.lockRequest, .trylockRequest, none, none, false, true, false⟩ :=
    Reachable.tail h0 (Or.inl (by decide))
  have h2 : Reachable ⟨.broadcast, .trylockRequest, some .A, none, false, true, false⟩ :=
    Reachable.tail h1 (Or.inl (by decide))
  have h3 : Reachable ⟨.trylockBaton, .trylockRequest, some .A, none, false, true, false⟩ :=
    Reachable.tail h2 (Or.inl (by decide))
  have h4 : Reachable ⟨.unlockBaton, .trylockRequest, some .A, some .A, false, true, false⟩ :=
    Reachable.tail h3 (Or.inl (by decide))
  have h5 : Reachable ⟨.done, .trylockRequest, some .A, none, false, true, false⟩ :=
    Reachable.tail h4 (Or.inl (by decide))
  have h6 : Reachable ⟨.done, .runFunc1, some .A, none, false, true, false⟩ :=
    Reachable.tail h5 (Or.inr (by decide))
  exact Reachable.tail h6 (Or.inr (by decide))

end Prec

end LindaEngine
